import Mathlib

/-!
Verification of the nerdctl "dockercompat" translation engine
(runtime-state-to-compatible-view) and of the internal OCI hook.

The translation engine is specified in the design document; its test suite
(TestContainerFromNative, TestNetworkSettingsFromNative,
TestCpuSettingsFromNative, TestImageFromNative) fixes its observable
behaviour.  The translation functions themselves are not part of the
source tree given here, so they are modelled from the specification text;
each such definition carries a doc comment starting with
`Modelled from the spec:`.  The OCI hook handler `onCreateRuntime` is
embedded directly from `internal_oci_hook.go`.
-/

namespace Dockercompat

/-- Modelled from the spec: a declared mount entry of the OCI runtime
specification (destination, type, source, option list), the input shape of
the MountTranslator when the snapshot is not self-managed. -/
structure SpecMount where
  destination : String
  type : String
  source : String
  options : List String
deriving Repr, DecidableEq

/-- Modelled from the spec: an output mount-point record
{type, source, destination, mode string, read-write flag, propagation}. -/
structure MountPoint where
  type : String
  source : String
  destination : String
  mode : String
  RW : Bool
  propagation : String
deriving Repr, DecidableEq

/-- Modelled from the spec: the four mount-propagation class options. -/
def propagationClassOpts : List String := ["rshared", "rslave", "rprivate", "private"]

/-- Modelled from the spec: whether an option names a propagation class. -/
def isPropagationClass (o : String) : Bool := propagationClassOpts.contains o

/-- Modelled from the spec: the propagation of a spec mount is the last
propagation-class option appearing in the option list, defaulting to
"rprivate" when none is present (a left fold keeping the latest). -/
def propagationOf (opts : List String) : String :=
  opts.foldl (fun acc o => if isPropagationClass o then o else acc) "rprivate"

/-- Modelled from the spec: translation of one OCI spec mount into a
MountPoint: mode is the comma-joined option list, RW is true unless an
explicit "ro" option is present, propagation as in `propagationOf`. -/
def mountPointFromSpecMount (m : SpecMount) : MountPoint :=
  { type := m.type
    source := m.source
    destination := m.destination
    mode := String.intercalate "," m.options
    RW := !(m.options.contains "ro")
    propagation := propagationOf m.options }

/-- Modelled from the spec: translation of the OCI spec mount list; entries
whose type is "sysfs" are dropped entirely, the rest keep declaration
order. -/
def mountsFromSpec : List SpecMount → List MountPoint
  | [] => []
  | m :: rest =>
      if m.type = "sysfs" then mountsFromSpec rest
      else mountPointFromSpecMount m :: mountsFromSpec rest

/-- Modelled from the spec: scanning the spec mount list for a bind mount
whose destination matches the given well-known destination; the first
match's source, or the empty string when there is no match. -/
def pathForDestination : List SpecMount → String → String
  | [], _ => ""
  | m :: rest, target =>
      if m.type = "bind" ∧ m.destination = target then m.source
      else pathForDestination rest target

/-- Modelled from the spec: the native OCI Linux CPU resource block.
Numeric cgroup fields are pointers in the native schema, modelled as
`Option`; the cpuset strings are plain strings. -/
structure LinuxCPU where
  cpus : String
  mems : String
  shares : Option Nat
  quota : Option Int
  period : Option Nat
  realtimePeriod : Option Nat
  realtimeRuntime : Option Int
deriving Repr, DecidableEq

/-- Modelled from the spec: the translated CPU settings record.  The output
schema carries plain scalars whose zero value means "field absent". -/
structure CPUSettings where
  cpuSetCpus : String := ""
  cpuSetMems : String := ""
  cpuShares : Nat := 0
  cpuQuota : Int := 0
  cpuPeriod : Nat := 0
  cpuRealtimePeriod : Nat := 0
  cpuRealtimeRuntime : Int := 0
deriving Repr, DecidableEq

/-- Modelled from the spec: a numeric field is present in the output only
if its native counterpart is non-nil and non-zero; otherwise the output
holds the absent marker (zero). -/
def natFieldFromNative (o : Option Nat) : Nat :=
  match o with
  | some v => if v = 0 then 0 else v
  | none => 0

/-- Modelled from the spec: signed variant of `natFieldFromNative`. -/
def intFieldFromNative (o : Option Int) : Int :=
  match o with
  | some v => if v = 0 then 0 else v
  | none => 0

/-- Modelled from the spec: the ResourceTranslator on a present CPU block;
string fields are copied verbatim, numeric fields via the zero-is-absent
rule. -/
def cpuSettingsFromCPU (c : LinuxCPU) : CPUSettings :=
  { cpuSetCpus := c.cpus
    cpuSetMems := c.mems
    cpuShares := natFieldFromNative c.shares
    cpuQuota := intFieldFromNative c.quota
    cpuPeriod := natFieldFromNative c.period
    cpuRealtimePeriod := natFieldFromNative c.realtimePeriod
    cpuRealtimeRuntime := intFieldFromNative c.realtimeRuntime }

/-- Modelled from the spec: the nested optional Linux resource block of an
OCI runtime spec, reduced to the part the ResourceTranslator reads. -/
structure LinuxResources where
  cpu : Option LinuxCPU
deriving Repr, DecidableEq

/-- Modelled from the spec: the Linux section of an OCI runtime spec. -/
structure LinuxSection where
  resources : Option LinuxResources
deriving Repr, DecidableEq

/-- Modelled from the spec: the OCI runtime specification part of a native
container snapshot (hostname, declared mounts, Linux resource block). -/
structure OciSpec where
  hostname : String := ""
  mounts : List SpecMount := []
  linux : Option LinuxSection := none
deriving Repr, DecidableEq

/-- Modelled from the spec: the optional chain spec.Linux.Resources.CPU. -/
def cpuOfSpec (sp : OciSpec) : Option LinuxCPU :=
  match sp.linux with
  | none => none
  | some lx =>
      match lx.resources with
      | none => none
      | some r => r.cpu

/-- Modelled from the spec: the ResourceTranslator entry point; a spec
without a CPU block yields the empty settings record. -/
def cpuSettingsFromNative (sp : OciSpec) : CPUSettings :=
  match cpuOfSpec sp with
  | some c => cpuSettingsFromCPU c
  | none => {}

/-- Modelled from the spec: the fixed label schema of a native snapshot.
The self-managed mount-list label carries a JSON-encoded array of mount
descriptors; JSON decoding is performed by the external library, so the
field is modelled as the already-decoded array (`some` exactly when the
label is present and well formed).  The private-state-directory, hostname
and user labels carry plain strings. -/
structure SnapshotLabels where
  mounts : Option (List MountPoint) := none
  stateDir : Option String := none
  hostname : Option String := none
  user : Option String := none
deriving Repr, DecidableEq

/-- Modelled from the spec: the native container snapshot consumed by the
ContainerAssembler — labels plus an optional OCI runtime spec. -/
structure NativeContainer where
  labels : SnapshotLabels := {}
  spec : Option OciSpec := none
deriving Repr, DecidableEq

/-- Modelled from the spec: provenance detection — a snapshot is
self-managed when the label set contains a self-managed mount-list label
and/or a private state-directory label. -/
def NativeContainer.selfManaged (n : NativeContainer) : Bool :=
  n.labels.mounts.isSome || n.labels.stateDir.isSome

/-- Modelled from the spec: the part of the compatible container view the
MountTranslator contributes — the ordered mount-point sequence and the
three well-known path shortcut fields. -/
structure Container where
  resolvConfPath : String
  hostnamePath : String
  hostsPath : String
  mounts : List MountPoint
deriving Repr, DecidableEq

/-- Modelled from the spec: the declared mounts of the snapshot's OCI spec
(empty when the spec is absent). -/
def NativeContainer.specMounts (n : NativeContainer) : List SpecMount :=
  match n.spec with
  | some sp => sp.mounts
  | none => []

/-- Modelled from the spec: mount and well-known-path derivation of the
ContainerAssembler.  A present self-managed mount-list label is decoded
as-is with no filtering; otherwise mounts come from the OCI spec's mount
declarations with sysfs entries dropped.  If self-managed, ResolvConfPath
is the private-state-directory label's value joined with "resolv.conf"
(populated only when that label is present) and the other two shortcut
fields stay empty; otherwise each well-known destination is resolved by
scanning the spec mount list for a bind mount whose destination matches. -/
def containerFromNative (n : NativeContainer) : Container :=
  { mounts :=
      match n.labels.mounts with
      | some decoded => decoded
      | none => mountsFromSpec n.specMounts
    resolvConfPath :=
      if n.selfManaged then
        match n.labels.stateDir with
        | some dir => dir ++ "/resolv.conf"
        | none => ""
      else pathForDestination n.specMounts "/etc/resolv.conf"
    hostnamePath :=
      if n.selfManaged then "" else pathForDestination n.specMounts "/etc/hostname"
    hostsPath :=
      if n.selfManaged then "" else pathForDestination n.specMounts "/etc/hosts" }

/-- Modelled from the spec: one enumerated network interface of a
namespace snapshot (name, hardware address, assigned CIDR addresses). -/
structure NetInterface where
  name : String
  hardwareAddr : String
  addrs : List String
deriving Repr, DecidableEq

/-- Modelled from the spec: one declared port-mapping entry (container
port, protocol, host IP, host port). -/
structure PortMapping where
  hostPort : Int
  containerPort : Int
  protocol : String
  hostIP : String
deriving Repr, DecidableEq

/-- Modelled from the spec: the namespace snapshot — enumerated interfaces
plus active port mappings. -/
structure NetNS where
  interfaces : List NetInterface
  portMappings : List PortMapping
deriving Repr, DecidableEq

/-- Modelled from the spec: one published-port binding {host IP, host port
rendered as a decimal string}. -/
structure PortBinding where
  hostIP : String
  hostPort : String
deriving Repr, DecidableEq

/-- Modelled from the spec: per-interface network endpoint settings
{IP address, prefix length, MAC address}. -/
structure NetworkEndpointSettings where
  ipAddress : String
  ipPrefixLen : Nat
  macAddress : String
deriving Repr, DecidableEq

/-- Modelled from the spec: the network-settings output; the port map and
the network map are association lists keyed by strings (Go maps — only
lookup is observable). -/
structure NetworkSettings where
  ports : List (String × List PortBinding)
  networks : List (String × NetworkEndpointSettings)
deriving Repr, DecidableEq

/-- Lookup in a string-keyed association list. -/
def alookup {α : Type} (m : List (String × α)) (k : String) : Option α :=
  match m with
  | [] => none
  | p :: rest => if p.1 = k then some p.2 else alookup rest k

/-- Remove every entry held under a key. -/
def eraseKey {α : Type} (k : String) : List (String × α) → List (String × α)
  | [] => []
  | p :: rest => if p.1 = k then eraseKey k rest else p :: eraseKey k rest

/-- Store a key-value pair, replacing any previous entry for the key
(Go map assignment, observed through lookup only). -/
def astore {α : Type} (m : List (String × α)) (k : String) (v : α) : List (String × α) :=
  (k, v) :: eraseKey k m

/-- The binding list held at a key, empty when the key is absent. -/
def bindingsAt (m : List (String × List PortBinding)) (k : String) : List PortBinding :=
  (alookup m k).getD []

/-- Split a character list at every occurrence of a separator character
(the separator-string split of the library, specialised to one-character
separators). -/
def splitOnChar (c : Char) : List Char → List (List Char)
  | [] => [[]]
  | x :: xs =>
      if x = c then [] :: splitOnChar c xs
      else
        match splitOnChar c xs with
        | [] => [[x]]
        | y :: ys => (x :: y) :: ys

/-- Join character lists with a separator character between them. -/
def joinChar (c : Char) : List (List Char) → List Char
  | [] => []
  | [x] => x
  | x :: xs => x ++ c :: joinChar c xs

/-- Read a non-empty all-digit character list as a decimal number. -/
def natOfDigitsAux : List Char → Nat → Option Nat
  | [], acc => some acc
  | c :: cs, acc =>
      if c.isDigit then natOfDigitsAux cs (acc * 10 + (c.toNat - 48)) else none

/-- Decimal parse of a character list (`none` on empty or non-digit
input). -/
def natOfDigits : List Char → Option Nat
  | [] => none
  | c :: cs => natOfDigitsAux (c :: cs) 0

/-- Modelled from the spec: splitting an assigned address of the form
`IP/prefixLength` into its IP text and decimal prefix length. -/
def splitAddr (s : String) : String × Nat :=
  match splitOnChar '/' s.toList with
  | [ip, p] => (String.mk ip, (natOfDigits p).getD 0)
  | _ => (s, 0)

/-- Modelled from the spec: the synthesized network name of an interface —
an annotation-supplied mapping keyed by interface name takes precedence,
otherwise "unknown-" prefixed to the interface name.  The annotation
mechanism is external and passed as the resolution function. -/
def networkNameFor (resolve : String → Option String) (ifname : String) : String :=
  match resolve ifname with
  | some nm => nm
  | none => "unknown-" ++ ifname

/-- Modelled from the spec: the endpoint settings of an interface, parsed
from its first assigned address and hardware address. -/
def endpointOfInterface (i : NetInterface) : NetworkEndpointSettings :=
  match i.addrs with
  | [] => { ipAddress := "", ipPrefixLen := 0, macAddress := i.hardwareAddr }
  | a :: _ =>
      { ipAddress := (splitAddr a).1
        ipPrefixLen := (splitAddr a).2
        macAddress := i.hardwareAddr }

/-- Modelled from the spec: the network map — each enumerated interface
with at least one assigned address contributes an endpoint under its
synthesized name (forward iteration, map assignment semantics). -/
def networksAux (resolve : String → Option String)
    (acc : List (String × NetworkEndpointSettings)) :
    List NetInterface → List (String × NetworkEndpointSettings)
  | [] => acc
  | i :: rest =>
      if i.addrs.isEmpty then networksAux resolve acc rest
      else
        networksAux resolve
          (astore acc (networkNameFor resolve i.name) (endpointOfInterface i)) rest

/-- Modelled from the spec: the port-map key of a mapping entry,
`<containerPort>/<protocol>`. -/
def portKey (pm : PortMapping) : String :=
  toString pm.containerPort ++ "/" ++ pm.protocol

/-- Modelled from the spec: the binding of a mapping entry; the host port
is rendered as a decimal string. -/
def bindingOf (pm : PortMapping) : PortBinding :=
  { hostIP := pm.hostIP, hostPort := toString pm.hostPort }

/-- Append a binding to the list held at a key of the port map. -/
def addBinding (m : List (String × List PortBinding)) (k : String) (b : PortBinding) :
    List (String × List PortBinding) :=
  astore m k (bindingsAt m k ++ [b])

/-- Modelled from the spec: the port map — each declared port-mapping
entry appends its binding at its key (forward iteration). -/
def portsAux (acc : List (String × List PortBinding)) :
    List PortMapping → List (String × List PortBinding)
  | [] => acc
  | pm :: rest => portsAux (addBinding acc (portKey pm) (bindingOf pm)) rest

/-- Modelled from the spec: the NetworkTranslator.  An absent namespace
snapshot yields — without error — a settings record whose port map and
network map are both present and empty; otherwise both maps are populated
from the snapshot.  The error component mirrors the Go signature. -/
def networkSettingsFromNative (resolve : String → Option String) :
    Option NetNS → Except String NetworkSettings
  | none => .ok { ports := [], networks := [] }
  | some ns =>
      .ok { ports := portsAux [] ns.portMappings
            networks := networksAux resolve [] ns.interfaces }

/-- Modelled from the spec: one image history entry (author, comment). -/
structure HistoryEntry where
  author : String
  comment : String
deriving Repr, DecidableEq

/-- Modelled from the spec: the native image snapshot — name, target
descriptor digest, resolved image-config descriptor digest, and the
decoded image config blob (rootfs diff IDs, history). -/
structure NativeImage where
  name : String
  targetDigest : String
  imageConfigDigest : String
  diffIDs : List String := []
  history : List HistoryEntry := []
deriving Repr, DecidableEq

/-- Modelled from the spec: the compatible image view fields derived by
the ImageTranslator. -/
structure Image where
  id : String
  repoTags : List String
  repoDigests : List String
  rootfsLayers : List String
  author : String
  comment : String
deriving Repr, DecidableEq

/-- Modelled from the spec: the repository portion of an image name — the
name with its trailing tag (the part after the last colon, when that part
holds no slash) removed. -/
def repositoryOfName (name : String) : String :=
  let ps := splitOnChar ':' name.toList
  match ps.getLast? with
  | none => name
  | some last =>
      if ps.length ≤ 1 then name
      else if '/' ∈ last then name
      else String.mk (joinChar ':' ps.dropLast)

/-- Modelled from the spec: the ImageTranslator — ID is the digest of the
resolved-config descriptor, RepoTags the single-element sequence holding
the name verbatim, RepoDigests the single-element sequence
`<repository>@<target-digest>`, rootfs layers order preserved, author and
comment from the last history entry that carries them. -/
def imageFromNative (i : NativeImage) : Image :=
  { id := i.imageConfigDigest
    repoTags := [i.name]
    repoDigests := [repositoryOfName i.name ++ "@" ++ i.targetDigest]
    rootfsLayers := i.diffIDs
    author := (((i.history.filter (fun h => h.author ≠ "")).getLast?).map HistoryEntry.author).getD ""
    comment := (((i.history.filter (fun h => h.comment ≠ "")).getLast?).map HistoryEntry.comment).getD "" }

end Dockercompat

namespace OciHook

/-- One observable state-changing action of the OCI hook handler
(embedded from internal_oci_hook.go): directory creation, file creation,
file write, file close, whole-file write, bind mount, CNI setup. -/
inductive HookEffect where
  | mkdirAll (path : String)
  | createFile (path : String)
  | fileWrite (path content : String)
  | closeFile (path : String)
  | writeFile (path : String)
  | bindMount (src dst : String)
  | cniSetup (id netns : String)
deriving Repr, DecidableEq

/-- Outcomes of the environment calls the hook performs: whether each
fallible operating-system or CNI call succeeds, and whether a stat finds
the file present.  The handler is a pure function of this oracle. -/
structure HookWorld where
  mkdirAllOk : String → Bool
  createOk : String → Bool
  writeOk : String → String → Bool
  closeOk : String → Bool
  statExists : String → Bool
  writeFileOk : String → Bool
  mountOk : String → String → Bool
  cniNewOk : Bool
  cniSetupOk : String → String → Bool

/-- Embedded from getNetNSPath: the network-namespace path of a process. -/
def getNetNSPath (pid : Nat) : String := "/proc/" ++ toString pid ++ "/ns/net"

/-- Embedded from the dns loop of onCreateRuntime: one "nameserver" line
is written per configured dns entry; a failed write aborts the loop with
the write error. -/
def writeDNSLines (w : HookWorld) (path : String) :
    List String → List HookEffect × Option String
  | [] => ([], none)
  | d :: rest =>
      let line := "nameserver " ++ d ++ "\n"
      if w.writeOk path line then
        let r := writeDNSLines w path rest
        (HookEffect.fileWrite path line :: r.1, r.2)
      else ([HookEffect.fileWrite path line], some "write error")

/-- Embedded from onCreateRuntime: when the rootfs /etc/resolv.conf is
absent, the handler creates the etc directory and an empty file there. -/
def ensureContainerResolvConf (w : HookWorld) (rootfs path : String) :
    List HookEffect × Option String :=
  if w.statExists path then ([], none)
  else
    if w.mkdirAllOk (rootfs ++ "/etc") then
      if w.writeFileOk path then
        ([HookEffect.mkdirAll (rootfs ++ "/etc"), HookEffect.writeFile path], none)
      else
        ([HookEffect.mkdirAll (rootfs ++ "/etc"), HookEffect.writeFile path],
          some "write file error")
    else ([HookEffect.mkdirAll (rootfs ++ "/etc")], some "mkdir error")

/-- Embedded from onCreateRuntime of internal_oci_hook.go.  The result is
the trace of attempted state-changing actions plus the returned error
(`none` stands for a nil Go error).  When the network flag is "none" or
"host" the switch takes the NOP branch and the handler returns nil at
once; otherwise it creates the container state directory, writes
resolv.conf there ("search localdomain" plus one nameserver line per dns
entry), ensures and bind-mounts the rootfs /etc/resolv.conf, and invokes
CNI setup, propagating the first failure. -/
def onCreateRuntime (w : HookWorld) (pid : Nat)
    (rootfs network containerStateDir fullId : String) (dns : List String) :
    List HookEffect × Option String :=
  if network = "none" ∨ network = "host" then ([], none)
  else
    let trace0 := [HookEffect.mkdirAll containerStateDir]
    if w.mkdirAllOk containerStateDir then
      let stateResolvConfPath := containerStateDir ++ "/resolv.conf"
      let trace1 := trace0 ++ [HookEffect.createFile stateResolvConfPath]
      if w.createOk stateResolvConfPath then
        let searchLine := "search localdomain\n"
        let trace2 := trace1 ++ [HookEffect.fileWrite stateResolvConfPath searchLine]
        if w.writeOk stateResolvConfPath searchLine then
          let dnsR := writeDNSLines w stateResolvConfPath dns
          let trace3 := trace2 ++ dnsR.1
          match dnsR.2 with
          | some e => (trace3, some e)
          | none =>
              let trace4 := trace3 ++ [HookEffect.closeFile stateResolvConfPath]
              if w.closeOk stateResolvConfPath then
                let containerResolvConfPath := rootfs ++ "/etc/resolv.conf"
                let ensureR := ensureContainerResolvConf w rootfs containerResolvConfPath
                let trace5 := trace4 ++ ensureR.1
                match ensureR.2 with
                | some e => (trace5, some e)
                | none =>
                    let trace6 := trace5 ++
                      [HookEffect.bindMount stateResolvConfPath containerResolvConfPath]
                    if w.mountOk stateResolvConfPath containerResolvConfPath then
                      if w.cniNewOk then
                        let netns := getNetNSPath pid
                        let trace7 := trace6 ++ [HookEffect.cniSetup fullId netns]
                        if w.cniSetupOk fullId netns then (trace7, none)
                        else (trace7, some "failed to call cni.Setup")
                      else (trace6, some "failed to call newCNI")
                    else
                      (trace6, some ("failed to mount " ++ stateResolvConfPath ++
                        " on " ++ containerResolvConfPath))
              else (trace4, some "close error")
        else (trace2, some "write error")
      else (trace1, some ("failed to create " ++ stateResolvConfPath))
    else (trace0, some ("failed to create " ++ containerStateDir))

end OciHook

namespace Dockercompat

/-- Fixture: the decoded nerdctl mount-list label entry of the reference
test (mount /mnt/foo with mode "rshared,rw"). -/
def mntFooLabelMP : MountPoint :=
  { type := "bind", source := "/mnt/foo", destination := "/mnt/foo"
    mode := "rshared,rw", RW := true, propagation := "rshared" }

/-- Fixture: the self-managed ("container from nerdctl") snapshot of the
reference test. -/
def nerdctlNative : NativeContainer :=
  { labels :=
      { mounts := some [mntFooLabelMP]
        stateDir := some "/test/state-dir"
        hostname := some "host1"
        user := some "test-user" }
    spec := some {} }

/-- Fixture: a sysfs-typed mount descriptor as it would decode from a
self-managed mount-list label. -/
def sysfsMP : MountPoint :=
  { type := "sysfs", source := "sysfs", destination := "/sys"
    mode := "nosuid,noexec,nodev,ro", RW := false, propagation := "rprivate" }

/-- Fixture: a snapshot whose mount-list label decodes to a single
sysfs-typed entry. -/
def sysfsLabelNative : NativeContainer := { labels := { mounts := some [sysfsMP] } }

/-- Fixture: the spec mount list of the "container from cri" reference
test (three well-known bind mounts, one plain bind mount, one sysfs
mount). -/
def criMounts : List SpecMount :=
  [ { destination := "/etc/resolv.conf", type := "bind"
      source := "/mock-sandbox-dir/resolv.conf", options := ["rbind", "rprivate", "rw"] },
    { destination := "/etc/hostname", type := "bind"
      source := "/mock-sandbox-dir/hostname", options := ["rbind", "rprivate", "rw"] },
    { destination := "/mnt/foo", type := "bind"
      source := "/mnt/foo", options := ["rbind", "rslave", "rw"] },
    { destination := "/sys", type := "sysfs"
      source := "sysfs", options := ["nosuid", "noexec", "nodev", "ro"] },
    { destination := "/etc/hosts", type := "bind"
      source := "/mock-sandbox-dir/hosts", options := ["bind", "rprivate", "rw"] } ]

/-- Fixture: the externally-orchestrated ("container from cri") snapshot
of the reference test — no self-managed labels. -/
def criNative : NativeContainer := { spec := some { mounts := criMounts } }

/-- Fixture: the plain /mnt/foo bind mount of the cri reference test. -/
def mntFooSpec : SpecMount :=
  { destination := "/mnt/foo", type := "bind"
    source := "/mnt/foo", options := ["rbind", "rslave", "rw"] }

/-- Fixture: a non-bind spec mount sitting at the well-known resolv.conf
destination. -/
def oddResolvMount : SpecMount :=
  { destination := "/etc/resolv.conf", type := "sysfs", source := "/weird/source", options := [] }

/-- Fixture: a non-self-managed snapshot whose only spec mount is
`oddResolvMount`. -/
def oddResolvNative : NativeContainer := { spec := some { mounts := [oddResolvMount] } }

/-- Follows the claim's words, not the spec's: the source of the first
spec mount whose destination matches the target, with no condition on the
mount type. -/
def firstMatchSource (ms : List SpecMount) (target : String) : Option String :=
  (ms.find? (fun m => m.destination = target)).map SpecMount.source

/-- Fixture: the fully populated CPU block of the "Full CPU Settings"
reference test. -/
def fullCPU : LinuxCPU :=
  { cpus := "0-3", mems := "0-1", shares := some 1024, quota := some 100000
    period := some 100000, realtimePeriod := some 1000000
    realtimeRuntime := some 950000 }

/-- Fixture: a CPU block whose five numeric pointers are all present and
exactly zero (the "Zero Values Should Be Ignored" reference test). -/
def zeroCPU : LinuxCPU :=
  { cpus := "", mems := "", shares := some 0, quota := some 0
    period := some 0, realtimePeriod := some 0, realtimeRuntime := some 0 }

/-- Fixture: the enumerated interface of the network reference test. -/
def ethIntf : NetInterface :=
  { name := "eth0.100", hardwareAddr := "xx:xx:xx:xx:xx:xx", addrs := ["10.0.4.30/24"] }

/-- Fixture: the port mapping of the network reference test. -/
def ethPM : PortMapping :=
  { hostPort := 8075, containerPort := 77, protocol := "tcp", hostIP := "127.0.0.1" }

/-- Fixture: the namespace snapshot of the network reference test. -/
def ethNS : NetNS := { interfaces := [ethIntf], portMappings := [ethPM] }

/-- Fixture: annotation-based name resolution that recognises nothing. -/
def noResolve : String → Option String := fun _ => none

/-- Fixture: the image snapshot of the image reference test. -/
def refImage : NativeImage :=
  { name := "myrepo/myimage:custom"
    targetDigest := "sha256:targetdigest"
    imageConfigDigest := "sha256:configdigest"
    diffIDs := ["sha256:layer1", "sha256:layer2"]
    history := [{ author := "test-author", comment := "test-comment" }] }

end Dockercompat

namespace OciHook

/-- Fixture: an environment oracle in which every call succeeds and every
stat finds its file. -/
def allOkWorld : HookWorld :=
  { mkdirAllOk := fun _ => true
    createOk := fun _ => true
    writeOk := fun _ _ => true
    closeOk := fun _ => true
    statExists := fun _ => true
    writeFileOk := fun _ => true
    mountOk := fun _ _ => true
    cniNewOk := true
    cniSetupOk := fun _ _ => true }

end OciHook

namespace Dockercompat

/-- The translated type of a spec mount is copied verbatim. -/
theorem mountPointFromSpecMount_type (m : SpecMount) :
    (mountPointFromSpecMount m).type = m.type := rfl

/-- The spec-mount translation equals dropping sysfs entries and mapping
the per-entry translation, so declaration order is preserved. -/
theorem mountsFromSpec_eq_filter_map (ms : List SpecMount) :
    mountsFromSpec ms
      = (ms.filter (fun m => m.type ≠ "sysfs")).map mountPointFromSpecMount := by
  induction ms with
  | nil => rfl
  | cons m rest ih =>
      by_cases h : m.type = "sysfs" <;>
        simp [mountsFromSpec, h, ih, List.filter_cons]

/-- Grounding check: the CPU translation on the "Full CPU Settings"
reference fixture. -/
example :
    cpuSettingsFromNative { linux := some { resources := some { cpu := some fullCPU } } }
      = { cpuSetCpus := "0-3", cpuSetMems := "0-1", cpuShares := 1024
          cpuQuota := 100000, cpuPeriod := 100000, cpuRealtimePeriod := 1000000
          cpuRealtimeRuntime := 950000 } := by decide

/-- Grounding check: an empty OCI spec translates to empty CPU settings,
and so does the all-zero fixture. -/
example : cpuSettingsFromNative {} = {} ∧ cpuSettingsFromCPU zeroCPU = {} := by decide

/-- C1 — For every OCI spec CPU resource block, each numeric field
(shares, quota, period, realtime period, realtime runtime) is absent
(holds the zero marker) in the translated CPUSettings whenever its native
counterpart is nil or a present pointer to exactly zero, and replacing a
pointer-to-zero by nil leaves the whole translated record unchanged. -/
theorem claim_c1_cpu_zero_is_absent (c : LinuxCPU) :
    ((c.shares = none ∨ c.shares = some 0) → (cpuSettingsFromCPU c).cpuShares = 0) ∧
    ((c.quota = none ∨ c.quota = some 0) → (cpuSettingsFromCPU c).cpuQuota = 0) ∧
    ((c.period = none ∨ c.period = some 0) → (cpuSettingsFromCPU c).cpuPeriod = 0) ∧
    ((c.realtimePeriod = none ∨ c.realtimePeriod = some 0) →
      (cpuSettingsFromCPU c).cpuRealtimePeriod = 0) ∧
    ((c.realtimeRuntime = none ∨ c.realtimeRuntime = some 0) →
      (cpuSettingsFromCPU c).cpuRealtimeRuntime = 0) ∧
    cpuSettingsFromCPU { c with shares := some 0 }
      = cpuSettingsFromCPU { c with shares := none } ∧
    cpuSettingsFromCPU { c with quota := some 0 }
      = cpuSettingsFromCPU { c with quota := none } ∧
    cpuSettingsFromCPU { c with period := some 0 }
      = cpuSettingsFromCPU { c with period := none } ∧
    cpuSettingsFromCPU { c with realtimePeriod := some 0 }
      = cpuSettingsFromCPU { c with realtimePeriod := none } ∧
    cpuSettingsFromCPU { c with realtimeRuntime := some 0 }
      = cpuSettingsFromCPU { c with realtimeRuntime := none } := by
  refine ⟨?_, ?_, ?_, ?_, ?_, ?_, ?_, ?_, ?_, ?_⟩ <;>
    first
      | (rintro (h | h) <;>
          simp [cpuSettingsFromCPU, natFieldFromNative, intFieldFromNative, h])
      | simp [cpuSettingsFromCPU, natFieldFromNative, intFieldFromNative]

/-- C1 witness: the reference all-zero CPU block translates to an entirely
absent record. -/
theorem claim_c1_cpu_zero_is_absent_wit :
    (cpuSettingsFromCPU zeroCPU).cpuShares = 0 ∧
    (cpuSettingsFromCPU zeroCPU).cpuQuota = 0 ∧
    (cpuSettingsFromCPU zeroCPU).cpuPeriod = 0 ∧
    (cpuSettingsFromCPU zeroCPU).cpuRealtimePeriod = 0 ∧
    (cpuSettingsFromCPU zeroCPU).cpuRealtimeRuntime = 0 :=
  ⟨(claim_c1_cpu_zero_is_absent zeroCPU).1 (Or.inr rfl),
   (claim_c1_cpu_zero_is_absent zeroCPU).2.1 (Or.inr rfl),
   (claim_c1_cpu_zero_is_absent zeroCPU).2.2.1 (Or.inr rfl),
   (claim_c1_cpu_zero_is_absent zeroCPU).2.2.2.1 (Or.inr rfl),
   (claim_c1_cpu_zero_is_absent zeroCPU).2.2.2.2.1 (Or.inr rfl)⟩

/-- The default of a cons list's last element shifts onto the head. -/
theorem getLastD_cons {α : Type} (a d : α) (l : List α) :
    ((a :: l).getLast?).getD d = (l.getLast?).getD a := by
  cases l with
  | nil => rfl
  | cons b t =>
      rw [List.getLast?_cons_cons]
      cases h : (b :: t).getLast? with
      | none => simp [List.getLast?] at h
      | some x => rfl

/-- A keep-last left fold over the propagation options equals the last
propagation-class option of the list, defaulting to the fold's start. -/
theorem foldl_propagation_eq (opts : List String) :
    ∀ init, opts.foldl (fun acc o => if isPropagationClass o then o else acc) init
      = ((opts.filter (fun o => isPropagationClass o)).getLast?).getD init := by
  induction opts with
  | nil => intro init; rfl
  | cons o rest ih =>
      intro init
      by_cases h : isPropagationClass o = true
      · simp only [List.foldl_cons, List.filter_cons, h, if_pos]
        rw [ih o, getLastD_cons]
      · have hb : isPropagationClass o = false := by
          simpa using h
        simp only [List.foldl_cons, List.filter_cons, hb, if_neg, Bool.false_eq_true,
          if_false]
        exact ih init

/-- The propagation of an option list is the last propagation-class
option, defaulting to "rprivate". -/
theorem propagationOf_eq_getLast (opts : List String) :
    propagationOf opts
      = ((opts.filter (fun o => isPropagationClass o)).getLast?).getD "rprivate" :=
  foldl_propagation_eq opts "rprivate"

/-- The well-known path scan returns the source of the first bind mount at
the target destination, or the empty string. -/
theorem pathForDestination_eq_find (ms : List SpecMount) (target : String) :
    pathForDestination ms target
      = ((ms.find? (fun m => m.type = "bind" ∧ m.destination = target)).map
          SpecMount.source).getD "" := by
  induction ms with
  | nil => rfl
  | cons m rest ih =>
      by_cases h : m.type = "bind" ∧ m.destination = target
      · simp [pathForDestination, h, List.find?_cons]
      · simp [pathForDestination, h, ih, List.find?_cons]

/-- Grounding check: the cri reference snapshot translates to the four
non-sysfs mount points in order and the three well-known paths. -/
example :
    containerFromNative criNative =
      { resolvConfPath := "/mock-sandbox-dir/resolv.conf"
        hostnamePath := "/mock-sandbox-dir/hostname"
        hostsPath := "/mock-sandbox-dir/hosts"
        mounts :=
          [ { type := "bind", source := "/mock-sandbox-dir/resolv.conf"
              destination := "/etc/resolv.conf", mode := "rbind,rprivate,rw"
              RW := true, propagation := "rprivate" },
            { type := "bind", source := "/mock-sandbox-dir/hostname"
              destination := "/etc/hostname", mode := "rbind,rprivate,rw"
              RW := true, propagation := "rprivate" },
            { type := "bind", source := "/mnt/foo"
              destination := "/mnt/foo", mode := "rbind,rslave,rw"
              RW := true, propagation := "rslave" },
            { type := "bind", source := "/mock-sandbox-dir/hosts"
              destination := "/etc/hosts", mode := "bind,rprivate,rw"
              RW := true, propagation := "rprivate" } ] } := by decide

/-- Grounding check: the self-managed nerdctl reference snapshot keeps the
decoded label mount verbatim and synthesizes ResolvConfPath from the
state-directory label. -/
example :
    containerFromNative nerdctlNative =
      { resolvConfPath := "/test/state-dir/resolv.conf"
        hostnamePath := "", hostsPath := ""
        mounts := [mntFooLabelMP] } := by decide

/-- C2 counterexample — when the self-managed mount-list label decodes to
a sysfs-typed entry, that entry does appear in the output mount sequence,
so sysfs exclusion does not hold for the self-managed provenance class. -/
theorem claim_c2_sysfs_cex :
    ∃ mp ∈ (containerFromNative sysfsLabelNative).mounts, mp.type = "sysfs" := by
  refine ⟨sysfsMP, ?_, rfl⟩
  show sysfsMP ∈ [sysfsMP]
  exact List.mem_singleton_self sysfsMP

/-- C2 amended — for every snapshot whose self-managed mount-list label is
absent, mount entries whose type is "sysfs" never appear in the output
sequence, and the remaining spec-declared entries appear translated in
their original declaration order; label-sourced mounts are exempt from the
filter. -/
theorem claim_c2_sysfs_exclusion_amended (n : NativeContainer)
    (h : n.labels.mounts = none) :
    (∀ mp ∈ (containerFromNative n).mounts, mp.type ≠ "sysfs") ∧
    (containerFromNative n).mounts
      = (n.specMounts.filter (fun m => m.type ≠ "sysfs")).map mountPointFromSpecMount := by
  have hm : (containerFromNative n).mounts = mountsFromSpec n.specMounts := by
    simp [containerFromNative, h]
  refine ⟨?_, by rw [hm, mountsFromSpec_eq_filter_map]⟩
  intro mp hmp
  rw [hm, mountsFromSpec_eq_filter_map] at hmp
  obtain ⟨m, hmem, hmap⟩ := List.mem_map.1 hmp
  obtain ⟨-, hpm⟩ := List.mem_filter.1 hmem
  have hty : m.type ≠ "sysfs" := by simpa using hpm
  rw [← hmap]
  exact hty

/-- C2 amended witness: the cri reference snapshot (whose spec mount list
holds a sysfs entry at position 3). -/
theorem claim_c2_sysfs_exclusion_amended_wit :
    (∀ mp ∈ (containerFromNative criNative).mounts, mp.type ≠ "sysfs") ∧
    (containerFromNative criNative).mounts
      = (criNative.specMounts.filter (fun m => m.type ≠ "sysfs")).map
          mountPointFromSpecMount :=
  claim_c2_sysfs_exclusion_amended criNative rfl

/-- C3 — when the self-managed mount-list label is present, the output
mount sequence is exactly the decoded label array with no filtering,
whatever the OCI spec declares, and the state-directory label (not any
spec mount) determines ResolvConfPath. -/
theorem claim_c3_label_mounts_precedence (n : NativeContainer) (l : List MountPoint)
    (h : n.labels.mounts = some l) :
    (containerFromNative n).mounts = l ∧
    (∀ sp : Option OciSpec, (containerFromNative { n with spec := sp }).mounts = l) ∧
    (∀ d, n.labels.stateDir = some d →
      (containerFromNative n).resolvConfPath = d ++ "/resolv.conf") := by
  refine ⟨by simp [containerFromNative, h], fun sp => by simp [containerFromNative, h], ?_⟩
  intro d hd
  have hsm : n.selfManaged = true := by
    simp [NativeContainer.selfManaged, h]
  simp [containerFromNative, hsm, hd]

/-- C3 witness: the nerdctl reference snapshot; even with the cri spec
mounts (which declare /etc/resolv.conf) spliced in, the label-derived
mounts and path win. -/
theorem claim_c3_label_mounts_precedence_wit :
    (containerFromNative nerdctlNative).mounts = [mntFooLabelMP] ∧
    (containerFromNative
        { nerdctlNative with spec := some { mounts := criMounts } }).mounts
      = [mntFooLabelMP] ∧
    (containerFromNative nerdctlNative).resolvConfPath
      = "/test/state-dir" ++ "/resolv.conf" :=
  ⟨(claim_c3_label_mounts_precedence nerdctlNative [mntFooLabelMP] rfl).1,
   (claim_c3_label_mounts_precedence nerdctlNative [mntFooLabelMP] rfl).2.1 _,
   (claim_c3_label_mounts_precedence nerdctlNative [mntFooLabelMP] rfl).2.2 _ rfl⟩

/-- Appending "/resolv.conf" never yields the empty string. -/
theorem append_resolv_conf_ne_empty (d : String) : d ++ "/resolv.conf" ≠ "" := by
  intro h
  have hl := congrArg String.length h
  rw [String.length_append] at hl
  have h12 : ("/resolv.conf" : String).length = 12 := rfl
  have h0 : ("" : String).length = 0 := rfl
  omega

/-- C4 — for every self-managed snapshot, ResolvConfPath is the
state-directory label's value concatenated with "/resolv.conf", populated
exactly when that label is present, and it does not depend on the OCI
spec (in particular not on whether any spec mount targets
/etc/resolv.conf). -/
theorem claim_c4_selfmanaged_resolv_path (n : NativeContainer)
    (h : n.selfManaged = true) :
    (containerFromNative n).resolvConfPath
      = (match n.labels.stateDir with
         | some d => d ++ "/resolv.conf"
         | none => "") ∧
    ((containerFromNative n).resolvConfPath ≠ "" ↔ n.labels.stateDir ≠ none) ∧
    (∀ sp : Option OciSpec,
      (containerFromNative { n with spec := sp }).resolvConfPath
        = (containerFromNative n).resolvConfPath) := by
  have hpath : (containerFromNative n).resolvConfPath
      = (match n.labels.stateDir with
         | some d => d ++ "/resolv.conf"
         | none => "") := by
    simp [containerFromNative, h]
  refine ⟨hpath, ?_, ?_⟩
  · rw [hpath]
    cases hd : n.labels.stateDir with
    | none => simp
    | some d => simpa using append_resolv_conf_ne_empty d
  · intro sp
    have h2 : NativeContainer.selfManaged { n with spec := sp } = true := h
    simp [containerFromNative, h, h2]

/-- C4 witness: the nerdctl reference snapshot. -/
theorem claim_c4_selfmanaged_resolv_path_wit :
    (containerFromNative nerdctlNative).resolvConfPath = "/test/state-dir/resolv.conf" ∧
    ((containerFromNative nerdctlNative).resolvConfPath ≠ ""
      ↔ nerdctlNative.labels.stateDir ≠ none) := by
  have h := claim_c4_selfmanaged_resolv_path nerdctlNative rfl
  exact ⟨by rw [h.1]; rfl, h.2.1⟩

/-- C5 counterexample — a non-self-managed snapshot whose first (and only)
spec mount matches the resolv.conf destination but is not bind-typed: the
claim's resolution rule picks its source, while the translation leaves the
field empty. -/
theorem claim_c5_first_match_cex :
    firstMatchSource oddResolvNative.specMounts "/etc/resolv.conf" = some "/weird/source" ∧
    (containerFromNative oddResolvNative).resolvConfPath = "" ∧
    (containerFromNative oddResolvNative).resolvConfPath
      ≠ (firstMatchSource oddResolvNative.specMounts "/etc/resolv.conf").getD "" := by
  refine ⟨rfl, rfl, ?_⟩
  decide

/-- C5 amended — for every non-self-managed snapshot, each of the three
well-known path fields equals the source of the first bind-typed spec
mount whose destination matches the corresponding well-known destination,
and the empty string when no such mount exists. -/
theorem claim_c5_wellknown_paths_amended (n : NativeContainer)
    (h1 : n.labels.mounts = none) (h2 : n.labels.stateDir = none) :
    (containerFromNative n).resolvConfPath
      = ((n.specMounts.find? (fun m => m.type = "bind" ∧ m.destination = "/etc/resolv.conf")).map
          SpecMount.source).getD "" ∧
    (containerFromNative n).hostnamePath
      = ((n.specMounts.find? (fun m => m.type = "bind" ∧ m.destination = "/etc/hostname")).map
          SpecMount.source).getD "" ∧
    (containerFromNative n).hostsPath
      = ((n.specMounts.find? (fun m => m.type = "bind" ∧ m.destination = "/etc/hosts")).map
          SpecMount.source).getD "" := by
  have hsm : n.selfManaged = false := by
    simp [NativeContainer.selfManaged, h1, h2]
  refine ⟨?_, ?_, ?_⟩ <;>
    simp [containerFromNative, hsm, pathForDestination_eq_find]

/-- C5 amended witness: the cri reference snapshot resolves all three
well-known paths from its bind mounts. -/
theorem claim_c5_wellknown_paths_amended_wit :
    (containerFromNative criNative).resolvConfPath
      = ((criNative.specMounts.find? (fun m => m.type = "bind" ∧ m.destination = "/etc/resolv.conf")).map
          SpecMount.source).getD "" ∧
    (containerFromNative criNative).hostnamePath
      = ((criNative.specMounts.find? (fun m => m.type = "bind" ∧ m.destination = "/etc/hostname")).map
          SpecMount.source).getD "" ∧
    (containerFromNative criNative).hostsPath
      = ((criNative.specMounts.find? (fun m => m.type = "bind" ∧ m.destination = "/etc/hosts")).map
          SpecMount.source).getD "" :=
  claim_c5_wellknown_paths_amended criNative rfl rfl

/-- C6 — every non-sysfs spec mount appears in the translated sequence
with mode the comma-joined option list, RW true exactly when no explicit
"ro" option is present, and propagation the last propagation-class option
(rshared, rslave, rprivate, private) of the option list, defaulting to
"rprivate". -/
theorem claim_c6_spec_mount_fields (ms : List SpecMount) (m : SpecMount)
    (hm : m ∈ ms) (hs : m.type ≠ "sysfs") :
    mountPointFromSpecMount m ∈ mountsFromSpec ms ∧
    (mountPointFromSpecMount m).mode = String.intercalate "," m.options ∧
    ((mountPointFromSpecMount m).RW = true ↔ "ro" ∉ m.options) ∧
    (mountPointFromSpecMount m).propagation
      = ((m.options.filter (fun o => isPropagationClass o)).getLast?).getD "rprivate" := by
  refine ⟨?_, rfl, ?_, ?_⟩
  · rw [mountsFromSpec_eq_filter_map]
    exact List.mem_map_of_mem _ (List.mem_filter.2 ⟨hm, by simpa using hs⟩)
  · show (!(m.options.contains "ro")) = true ↔ "ro" ∉ m.options
    simp
  · show propagationOf m.options = _
    exact propagationOf_eq_getLast m.options

/-- C6 witness: the /mnt/foo mount of the cri reference test. -/
theorem claim_c6_spec_mount_fields_wit :
    mountPointFromSpecMount mntFooSpec ∈ mountsFromSpec criMounts ∧
    (mountPointFromSpecMount mntFooSpec).mode = String.intercalate "," mntFooSpec.options ∧
    ((mountPointFromSpecMount mntFooSpec).RW = true ↔ "ro" ∉ mntFooSpec.options) ∧
    (mountPointFromSpecMount mntFooSpec).propagation
      = ((mntFooSpec.options.filter (fun o => isPropagationClass o)).getLast?).getD
          "rprivate" :=
  claim_c6_spec_mount_fields criMounts mntFooSpec (by decide) (by decide)

/-- C7 — Translating network settings for an absent (nil) namespace
snapshot is not an error: the result is ok, with the port map and the
network map both present and empty. -/
theorem claim_c7_nil_netns_empty_settings (resolve : String → Option String) :
    networkSettingsFromNative resolve none
      = Except.ok { ports := [], networks := [] } := rfl

/-- Storing a key makes lookup return the stored value. -/
theorem alookup_astore_self {α : Type} (m : List (String × α)) (k : String) (v : α) :
    alookup (astore m k v) k = some v := by
  simp [alookup, astore]

/-- Erasing one key leaves lookups at other keys alone. -/
theorem alookup_eraseKey_ne {α : Type} (m : List (String × α)) (k k' : String)
    (h : k' ≠ k) :
    alookup (eraseKey k m) k' = alookup m k' := by
  induction m with
  | nil => rfl
  | cons p rest ih =>
      by_cases hp : p.1 = k
      · have hkk : ¬ k = k' := fun e => h e.symm
        simp [eraseKey, hp, alookup, hkk, ih]
      · by_cases hk : p.1 = k'
        · simp [eraseKey, hp, alookup, hk, h]
        · simp [eraseKey, hp, alookup, hk, ih]

/-- Storing a key leaves lookups at other keys alone. -/
theorem alookup_astore_ne {α : Type} (m : List (String × α)) (k k' : String) (v : α)
    (h : k' ≠ k) :
    alookup (astore m k v) k' = alookup m k' := by
  have hne : ¬ k = k' := fun e => h e.symm
  simp only [astore, alookup, hne, if_neg, if_false]
  exact alookup_eraseKey_ne m k k' h

/-- Interfaces that do not contribute the key leave its lookup alone. -/
theorem networksAux_frame (resolve : String → Option String) (k : String) :
    ∀ (l : List NetInterface) (acc : List (String × NetworkEndpointSettings)),
      (∀ j ∈ l, j.addrs ≠ [] → networkNameFor resolve j.name ≠ k) →
      alookup (networksAux resolve acc l) k = alookup acc k := by
  intro l
  induction l with
  | nil => intro acc _; rfl
  | cons j rest ih =>
      intro acc hj
      by_cases he : j.addrs.isEmpty
      · rw [show networksAux resolve acc (j :: rest) = networksAux resolve acc rest by
          simp [networksAux, he]]
        exact ih acc (fun j' hj' => hj j' (List.mem_cons_of_mem j hj'))
      · have hne : j.addrs ≠ [] := by
          simpa [List.isEmpty_iff] using he
        rw [show networksAux resolve acc (j :: rest)
            = networksAux resolve
                (astore acc (networkNameFor resolve j.name) (endpointOfInterface j))
                rest by
          simp [networksAux, he]]
        rw [ih _ (fun j' hj' => hj j' (List.mem_cons_of_mem j hj'))]
        exact alookup_astore_ne _ _ _ _ (Ne.symm (hj j (List.mem_cons_self j rest) hne))

/-- Every interface with an assigned address is found in the network map
under its synthesized name, provided the synthesized names of the
contributing interfaces are pairwise distinct. -/
theorem networksAux_lookup (resolve : String → Option String) :
    ∀ (l : List NetInterface) (i : NetInterface), i ∈ l → i.addrs ≠ [] →
      ((l.filter (fun j => !j.addrs.isEmpty)).map
        (fun j => networkNameFor resolve j.name)).Nodup →
      ∀ acc, alookup (networksAux resolve acc l) (networkNameFor resolve i.name)
        = some (endpointOfInterface i) := by
  intro l
  induction l with
  | nil => intro i hi; cases hi
  | cons j rest ih =>
      intro i hi ha hnd acc
      rcases List.mem_cons.1 hi with rfl | hmem
      · have he : i.addrs.isEmpty = false := by
          simpa [List.isEmpty_iff] using ha
        have hfc : (i :: rest).filter (fun j => !j.addrs.isEmpty)
            = i :: rest.filter (fun j => !j.addrs.isEmpty) := by
          simp [List.filter_cons, he]
        rw [hfc, List.map_cons, List.nodup_cons] at hnd
        rw [show networksAux resolve acc (i :: rest)
            = networksAux resolve
                (astore acc (networkNameFor resolve i.name) (endpointOfInterface i))
                rest by
          simp [networksAux, he]]
        rw [networksAux_frame resolve _ rest _ ?fresh]
        · exact alookup_astore_self _ _ _
        case fresh =>
          intro j' hj' ha' heq
          apply hnd.1
          rw [← heq]
          exact List.mem_map_of_mem _
            (List.mem_filter.2 ⟨hj', by simpa [List.isEmpty_iff] using ha'⟩)
      · by_cases he : j.addrs.isEmpty
        · have hfc : (j :: rest).filter (fun x => !x.addrs.isEmpty)
              = rest.filter (fun x => !x.addrs.isEmpty) := by
            simp [List.filter_cons, he]
          rw [hfc] at hnd
          rw [show networksAux resolve acc (j :: rest) = networksAux resolve acc rest by
            simp [networksAux, he]]
          exact ih i hmem ha hnd acc
        · have hfc : (j :: rest).filter (fun x => !x.addrs.isEmpty)
              = j :: rest.filter (fun x => !x.addrs.isEmpty) := by
            simp [List.filter_cons, he]
          rw [hfc, List.map_cons, List.nodup_cons] at hnd
          rw [show networksAux resolve acc (j :: rest)
              = networksAux resolve
                  (astore acc (networkNameFor resolve j.name) (endpointOfInterface j))
                  rest by
            simp [networksAux, he]]
          exact ih i hmem ha hnd.2 _

/-- Appending a binding at a key extends exactly that key's list. -/
theorem bindingsAt_addBinding_self (m : List (String × List PortBinding)) (k : String)
    (b : PortBinding) :
    bindingsAt (addBinding m k b) k = bindingsAt m k ++ [b] := by
  simp [bindingsAt, addBinding, alookup_astore_self]

/-- Appending a binding at a key leaves the other keys' lists alone. -/
theorem bindingsAt_addBinding_ne (m : List (String × List PortBinding)) (k k' : String)
    (b : PortBinding) (h : k' ≠ k) :
    bindingsAt (addBinding m k b) k' = bindingsAt m k' := by
  simp [bindingsAt, addBinding, alookup_astore_ne _ _ _ _ h]

/-- Processing port mappings never removes a binding already present. -/
theorem portsAux_mono :
    ∀ (pms : List PortMapping) (acc : List (String × List PortBinding)) (k : String)
      (b : PortBinding), b ∈ bindingsAt acc k → b ∈ bindingsAt (portsAux acc pms) k := by
  intro pms
  induction pms with
  | nil => intro acc k b hb; exact hb
  | cons pm rest ih =>
      intro acc k b hb
      apply ih
      by_cases hk : k = portKey pm
      · subst hk
        rw [bindingsAt_addBinding_self]
        exact List.mem_append_left _ hb
      · rw [bindingsAt_addBinding_ne _ _ _ _ hk]
        exact hb

/-- Every declared port mapping contributes its binding at its key. -/
theorem portsAux_lookup :
    ∀ (pms : List PortMapping) (pm : PortMapping), pm ∈ pms →
      ∀ acc, bindingOf pm ∈ bindingsAt (portsAux acc pms) (portKey pm) := by
  intro pms
  induction pms with
  | nil => intro pm hpm; cases hpm
  | cons q rest ih =>
      intro pm hpm acc
      rcases List.mem_cons.1 hpm with rfl | hmem
      · show bindingOf pm ∈
          bindingsAt (portsAux (addBinding acc (portKey pm) (bindingOf pm)) rest)
            (portKey pm)
        apply portsAux_mono
        rw [bindingsAt_addBinding_self]
        exact List.mem_append_right _ (List.mem_singleton_self _)
      · exact ih pm hmem _

/-- Grounding check: the network reference snapshot (one interface with
one address, one published port) translates to the expected maps. -/
example :
    networkSettingsFromNative noResolve (some ethNS)
      = Except.ok
          { ports := [("77/tcp", [{ hostIP := "127.0.0.1", hostPort := "8075" }])]
            networks := [("unknown-eth0.100",
              { ipAddress := "10.0.4.30", ipPrefixLen := 24
                macAddress := "xx:xx:xx:xx:xx:xx" })] } := rfl

/-- C8 — for every present namespace snapshot: each enumerated interface
with at least one assigned address yields a network-map entry keyed
"unknown-" prefixed to the interface name (when no annotation-supplied
mapping applies, and with the contributing synthesized names pairwise
distinct) whose IP address and prefix length come from the parsed first
address and whose MAC address is the hardware address; and each
port-mapping entry yields a port-map binding at key
`<containerPort>/<protocol>` whose host port is rendered as a decimal
string. -/
theorem claim_c8_populated_network_settings
    (resolve : String → Option String) (ns : NetNS)
    (i : NetInterface) (a : String) (rest : List String) (pm : PortMapping)
    (hi : i ∈ ns.interfaces) (ha : i.addrs = a :: rest)
    (hres : resolve i.name = none)
    (hnd : ((ns.interfaces.filter (fun j => !j.addrs.isEmpty)).map
        (fun j => networkNameFor resolve j.name)).Nodup)
    (hpm : pm ∈ ns.portMappings) :
    ∃ s, networkSettingsFromNative resolve (some ns) = Except.ok s ∧
      alookup s.networks ("unknown-" ++ i.name)
        = some { ipAddress := (splitAddr a).1, ipPrefixLen := (splitAddr a).2
                 macAddress := i.hardwareAddr } ∧
      { hostIP := pm.hostIP, hostPort := toString pm.hostPort } ∈
        bindingsAt s.ports (toString pm.containerPort ++ "/" ++ pm.protocol) := by
  refine ⟨_, rfl, ?_, ?_⟩
  · have hkey : networkNameFor resolve i.name = "unknown-" ++ i.name := by
      simp [networkNameFor, hres]
    have hl := networksAux_lookup resolve ns.interfaces i hi (by rw [ha]; simp) hnd []
    rw [hkey] at hl
    rw [show (Dockercompat.NetworkSettings.mk (portsAux [] ns.portMappings)
        (networksAux resolve [] ns.interfaces)).networks
        = networksAux resolve [] ns.interfaces from rfl]
    rw [hl]
    simp [endpointOfInterface, ha]
  · exact portsAux_lookup ns.portMappings pm hpm []

/-- C8 witness: the network reference fixture. -/
theorem claim_c8_populated_network_settings_wit :
    ∃ s, networkSettingsFromNative noResolve (some ethNS) = Except.ok s ∧
      alookup s.networks ("unknown-" ++ ethIntf.name)
        = some { ipAddress := (splitAddr "10.0.4.30/24").1
                 ipPrefixLen := (splitAddr "10.0.4.30/24").2
                 macAddress := ethIntf.hardwareAddr } ∧
      { hostIP := ethPM.hostIP, hostPort := toString ethPM.hostPort } ∈
        bindingsAt s.ports (toString ethPM.containerPort ++ "/" ++ ethPM.protocol) :=
  claim_c8_populated_network_settings noResolve ethNS ethIntf "10.0.4.30/24" [] ethPM
    (by decide) rfl rfl (by decide) (by decide)

/-- Grounding check: the image reference snapshot translates to the
expected identity fields, rootfs layers and history fields. -/
example :
    imageFromNative refImage
      = { id := "sha256:configdigest"
          repoTags := ["myrepo/myimage:custom"]
          repoDigests := ["myrepo/myimage@sha256:targetdigest"]
          rootfsLayers := ["sha256:layer1", "sha256:layer2"]
          author := "test-author"
          comment := "test-comment" } := by decide

/-- C9 — for every image snapshot, the translated ID is the digest of the
resolved image-config descriptor (so it differs from the target digest
whenever the two content addresses differ), RepoTags is the single-element
sequence holding the image name verbatim, and RepoDigests is the
single-element sequence built from the repository portion of the name,
"@", and the target digest. -/
theorem claim_c9_image_identity (i : NativeImage) :
    (imageFromNative i).id = i.imageConfigDigest ∧
    (imageFromNative i).repoTags = [i.name] ∧
    (imageFromNative i).repoDigests
      = [repositoryOfName i.name ++ "@" ++ i.targetDigest] ∧
    (i.imageConfigDigest ≠ i.targetDigest → (imageFromNative i).id ≠ i.targetDigest) :=
  ⟨rfl, rfl, rfl, fun h => h⟩

/-- C9 witness: the image reference fixture, whose config digest differs
from its target digest. -/
theorem claim_c9_image_identity_wit :
    (imageFromNative refImage).id = refImage.imageConfigDigest ∧
    (imageFromNative refImage).repoTags = [refImage.name] ∧
    (imageFromNative refImage).repoDigests
      = [repositoryOfName refImage.name ++ "@" ++ refImage.targetDigest] ∧
    (imageFromNative refImage).id ≠ refImage.targetDigest :=
  ⟨(claim_c9_image_identity refImage).1,
   (claim_c9_image_identity refImage).2.1,
   (claim_c9_image_identity refImage).2.2.1,
   (claim_c9_image_identity refImage).2.2.2 (by decide)⟩

end Dockercompat

namespace OciHook

/-- C10 — With the network flag "none" or "host", onCreateRuntime returns
nil after performing no state-changing action at all: the effect trace is
empty (no state-directory creation, no resolv.conf write, no bind mount,
no CNI setup), whatever the environment, process, rootfs, state
directory, container id and dns configuration are. -/
theorem claim_c10_hook_nop (w : HookWorld) (pid : Nat)
    (rootfs network containerStateDir fullId : String) (dns : List String)
    (h : network = "none" ∨ network = "host") :
    onCreateRuntime w pid rootfs network containerStateDir fullId dns = ([], none) := by
  unfold onCreateRuntime
  rw [if_pos h]

/-- C10 witness: a concrete "none"-network invocation in an all-succeeding
environment produces the empty trace and a nil error. -/
theorem claim_c10_hook_nop_wit :
    onCreateRuntime allOkWorld 42 "/rootfs" "none" "/var/lib/nerdctl/default/id" "default-id"
        ["10.0.0.2"]
      = ([], none) :=
  claim_c10_hook_nop allOkWorld 42 "/rootfs" "none" "/var/lib/nerdctl/default/id"
    "default-id" ["10.0.0.2"] (Or.inl rfl)

end OciHook
